import Mathlib

/-
Verification of the solar-yield estimation core of streamlit_app1.py:
geometry packing, energy forecasting, financial evaluation, suitability
scoring, and the irradiance fallback-profile selection. Python floats are
modelled as exact rationals; Python round (ties to even) is modelled by
pyRoundInt / pyRound1 below.
-/

set_option autoImplicit false

namespace Solar

/-- Panel orientation selector used by compute_panels_fit. -/
inductive Orientation
  | portrait
  | landscape
  deriving DecidableEq

/-- Python builtin round to the nearest integer with ties going to the even
integer (banker's rounding), as invoked by the script's round calls. -/
def pyRoundInt (x : ℚ) : ℤ :=
  if x - ⌊x⌋ < 1/2 then ⌊x⌋
  else if 1/2 < x - ⌊x⌋ then ⌊x⌋ + 1
  else if ⌊x⌋ % 2 = 0 then ⌊x⌋ else ⌊x⌋ + 1

/-- Python builtin round to one decimal place, as in round(x, 1). -/
def pyRound1 (x : ℚ) : ℚ := (pyRoundInt (x * 10) : ℚ) / 10

/-- The tropical fallback irradiance table fallback_india of
fetch_nasa_power_monthly, in calendar order Jan..Dec. -/
def fallback_india : List ℚ :=
  [4.5, 5.2, 6.0, 6.4, 6.5, 5.5, 4.8, 5.0, 5.8, 5.7, 5.0, 4.6]

/-- The temperate fallback irradiance table fallback_global of
fetch_nasa_power_monthly, in calendar order Jan..Dec. -/
def fallback_global : List ℚ :=
  [3.8, 4.5, 5.5, 5.8, 6.0, 5.0, 4.2, 4.5, 5.0, 5.2, 4.5, 4.0]

/-- The except branch of fetch_nasa_power_monthly: when the NASA POWER
request fails, the fallback profile is chosen by latitude band. -/
def fallback_profile (lat : ℚ) : List ℚ :=
  if |lat| < 30 then fallback_india else fallback_global

/-- numpy clip: values below lo are pinned to lo, values above hi to hi. -/
def np_clip (x lo hi : ℚ) : ℚ := min (max x lo) hi

/-- The resource_score local of suitability_score: a neutral 50 for an
empty irradiance dict, otherwise 20 + (mean - 3) * 18 clamped to [20, 95].
The monthly irradiance dict is modelled as the list of its values; numpy
mean is sum divided by length. -/
def resource_score (monthly_psh : List ℚ) : ℚ :=
  if monthly_psh = [] then 50
  else np_clip (20 + (monthly_psh.sum / (monthly_psh.length : ℚ) - 3) * 18) 20 95

/-- The area_score local of suitability_score. -/
def area_score (roof_area_m2 : ℚ) : ℚ :=
  30 + np_clip ((roof_area_m2 - 10) * 1.5) 0 65

/-- The shade_score local of suitability_score. -/
def shade_score (shading_factor : ℚ) : ℚ :=
  np_clip (100 - shading_factor * 100) 10 100

/-- The tilt_score local of suitability_score, built from the ideal offset
abs(abs(lat) - tilt_deg). -/
def tilt_score (tilt_deg lat : ℚ) : ℚ :=
  np_clip (100 - |(|lat| - tilt_deg)| * 2.2) 40 100

/-- suitability_score from the script: the weighted sum of the four clamped
sub-scores with weights 0.35, 0.25, 0.2, 0.2, rounded to one decimal. -/
def suitability_score (roof_area_m2 : ℚ) (monthly_psh : List ℚ)
    (shading_factor tilt_deg lat : ℚ) : ℚ :=
  pyRound1 (resource_score monthly_psh * 0.35 + area_score roof_area_m2 * 0.25 +
    shade_score shading_factor * 0.2 + tilt_score tilt_deg lat * 0.2)

/-- Effective panel footprint: compute_panels_fit swaps width and height
when the orientation is Landscape. -/
def effPanel (o : Orientation) (panel_w panel_h : ℚ) : ℚ × ℚ :=
  match o with
  | .landscape => (panel_h, panel_w)
  | .portrait => (panel_w, panel_h)

/-- The inner count_axis helper of compute_panels_fit: zero when the panel
axis is non-positive, otherwise the floor of (avail + clearance/2) over
(panel + clearance), clamped to be non-negative. -/
def count_axis (clearance avail p : ℚ) : ℤ :=
  if p ≤ 0 then 0
  else max (⌊(avail + clearance * 0.5) / (p + clearance)⌋) 0

/-- compute_panels_fit from the script; returns (count, rows, cols) in the
source's tuple order. -/
def compute_panels_fit (roof_w roof_h panel_w panel_h clearance : ℚ)
    (orientation : Orientation) : ℤ × ℤ × ℤ :=
  let pw := (effPanel orientation panel_w panel_h).1
  let ph := (effPanel orientation panel_w panel_h).2
  let avail_w := max (roof_w - 2 * clearance) 0
  let avail_h := max (roof_h - 2 * clearance) 0
  let cols := count_axis clearance avail_w pw
  let rows := count_axis clearance avail_h ph
  (rows * cols, rows, cols)

/-- monthly_energy_kwh from the script: energy for one month. -/
def monthly_energy_kwh (system_kw monthly_psh days pr shading_factor : ℚ) : ℚ :=
  system_kw * monthly_psh * days * pr * (1 - shading_factor)

/-- The script's monthly forecast list: monthly_energy_kwh applied to each
of the twelve months in calendar order. -/
def monthly_energy (system_kw : ℚ) (monthly_psh days : Fin 12 → ℚ)
    (pr shading_factor : ℚ) : List ℚ :=
  List.ofFn fun m => monthly_energy_kwh system_kw (monthly_psh m) (days m) pr shading_factor

/-- annual_kwh from the script: the sum of the monthly forecast list. -/
def annual_kwh (system_kw : ℚ) (monthly_psh days : Fin 12 → ℚ)
    (pr shading_factor : ℚ) : ℚ :=
  (monthly_energy system_kw monthly_psh days pr shading_factor).sum

/-- The financial lines of the script: installation cost, annual savings
(both rounded to whole currency units), and the payback period rounded to
one decimal, with the savings floored at 1 in the denominator.
Returns (install_cost, annual_savings, payback_years). -/
def financial_evaluate (system_kw annual cost_per_kw tariff : ℚ) : ℚ × ℚ × ℚ :=
  let install_cost : ℚ := (pyRoundInt (system_kw * cost_per_kw) : ℚ)
  let annual_savings : ℚ := (pyRoundInt (annual * tariff) : ℚ)
  (install_cost, annual_savings, pyRound1 (install_cost / max annual_savings 1))

lemma count_axis_nonneg (clearance avail p : ℚ) : 0 ≤ count_axis clearance avail p := by
  unfold count_axis
  split_ifs
  · exact le_refl 0
  · exact le_max_right _ _

lemma count_axis_mono (clearance p : ℚ) (hc : 0 ≤ clearance) {a b : ℚ} (hab : a ≤ b) :
    count_axis clearance a p ≤ count_axis clearance b p := by
  unfold count_axis
  split_ifs with hp
  · exact le_refl 0
  · have hpc : 0 < p + clearance := by
      have := not_le.mp hp
      linarith
    refine max_le_max ?_ le_rfl
    refine Int.floor_le_floor ?_
    exact (div_le_div_iff_of_pos_right hpc).mpr (by linarith)

/-- C1: for positive panel dimensions and non-negative clearance,
compute_panels_fit returns exactly the spec formula: per-axis count
floor((available + clearance/2) / (panel_axis + clearance)) clamped to be
at least 0, where available = max(roof dimension - 2 * clearance, 0), and
total count = rows * cols. -/
theorem C1_packer_formula (roof_w roof_h panel_w panel_h clearance : ℚ)
    (o : Orientation) (hpw : 0 < panel_w) (hph : 0 < panel_h) (hc : 0 ≤ clearance) :
    compute_panels_fit roof_w roof_h panel_w panel_h clearance o =
      (max ⌊(max (roof_h - 2 * clearance) 0 + clearance / 2) /
            ((effPanel o panel_w panel_h).2 + clearance)⌋ 0 *
         max ⌊(max (roof_w - 2 * clearance) 0 + clearance / 2) /
            ((effPanel o panel_w panel_h).1 + clearance)⌋ 0,
       max ⌊(max (roof_h - 2 * clearance) 0 + clearance / 2) /
            ((effPanel o panel_w panel_h).2 + clearance)⌋ 0,
       max ⌊(max (roof_w - 2 * clearance) 0 + clearance / 2) /
            ((effPanel o panel_w panel_h).1 + clearance)⌋ 0) := by
  have h05 : (0.5 : ℚ) = 1 / 2 := by norm_num
  have e : clearance * 0.5 = clearance / 2 := by rw [h05]; ring
  cases o <;>
    simp only [compute_panels_fit, count_axis, effPanel, e] <;>
    rw [if_neg (not_le.mpr hph), if_neg (not_le.mpr hpw)]

/-- Witness for C1 at a concrete input. -/
theorem C1_packer_formula_witness :
    compute_panels_fit 12 9 1 2 0.5 Orientation.portrait = (21, 3, 7) := by
  rw [C1_packer_formula 12 9 1 2 0.5 Orientation.portrait (by norm_num) (by norm_num)
    (by norm_num)]
  norm_num [effPanel]

/-- C2 counterexample: on roof 10 x 8, clearance 0.4, panel 1.1 x 1.75
Portrait, the packer does not return 16 panels in a 4 x 4 grid. -/
theorem C2_scenario_counterexample :
    compute_panels_fit 10 8 1.1 1.75 0.4 Orientation.portrait ≠ (16, 4, 4) := by
  norm_num [compute_panels_fit, count_axis, effPanel]

/-- C2 amended: on roof 10 x 8, clearance 0.4, panel 1.1 x 1.75 Portrait,
the packer returns 6 columns and 3 rows, 18 panels in total (the width
axis gives floor(9.4 / 1.5) = 6, the height axis floor(7.4 / 2.15) = 3). -/
theorem C2_scenario_amended :
    compute_panels_fit 10 8 1.1 1.75 0.4 Orientation.portrait = (18, 3, 6) := by
  norm_num [compute_panels_fit, count_axis, effPanel]

/-- C7: packing in Landscape orientation equals packing the panel with its
width and height swapped in Portrait orientation. -/
theorem C7_orientation_symmetry (roof_w roof_h panel_w panel_h clearance : ℚ) :
    compute_panels_fit roof_w roof_h panel_w panel_h clearance Orientation.landscape =
      compute_panels_fit roof_w roof_h panel_h panel_w clearance Orientation.portrait := rfl

/-- C8: for a fixed panel, orientation and non-negative clearance,
increasing either roof dimension never decreases the panel count. -/
theorem C8_packer_monotone (panel_w panel_h clearance : ℚ) (o : Orientation)
    (rw₁ rh₁ rw₂ rh₂ : ℚ) (hc : 0 ≤ clearance) (hw0 : 0 ≤ rw₁) (hh0 : 0 ≤ rh₁)
    (hw : rw₁ ≤ rw₂) (hh : rh₁ ≤ rh₂) :
    (compute_panels_fit rw₁ rh₁ panel_w panel_h clearance o).1 ≤
      (compute_panels_fit rw₂ rh₂ panel_w panel_h clearance o).1 := by
  have haw : max (rw₁ - 2 * clearance) 0 ≤ max (rw₂ - 2 * clearance) 0 :=
    max_le_max (by linarith) le_rfl
  have hah : max (rh₁ - 2 * clearance) 0 ≤ max (rh₂ - 2 * clearance) 0 :=
    max_le_max (by linarith) le_rfl
  have hcols := count_axis_mono clearance (effPanel o panel_w panel_h).1 hc haw
  have hrows := count_axis_mono clearance (effPanel o panel_w panel_h).2 hc hah
  simp only [compute_panels_fit]
  exact mul_le_mul hrows hcols (count_axis_nonneg _ _ _) (le_trans (count_axis_nonneg _ _ _) hrows)

/-- Witness for C8 at a concrete input. -/
theorem C8_packer_monotone_witness :
    (compute_panels_fit 10 8 1.1 1.75 0.4 Orientation.portrait).1 ≤
      (compute_panels_fit 12 9 1.1 1.75 0.4 Orientation.portrait).1 :=
  C8_packer_monotone 1.1 1.75 0.4 Orientation.portrait 10 8 12 9 (by norm_num)
    (by norm_num) (by norm_num) (by norm_num) (by norm_num)

/-- C10: a non-positive effective panel axis yields a zero count on that
axis, and hence a zero total count, with no division performed. -/
theorem C10_degenerate_panel :
    (∀ clearance avail p : ℚ, p ≤ 0 → count_axis clearance avail p = 0) ∧
    (∀ (roof_w roof_h panel_w panel_h clearance : ℚ) (o : Orientation),
      panel_w ≤ 0 ∨ panel_h ≤ 0 →
      (compute_panels_fit roof_w roof_h panel_w panel_h clearance o).1 = 0) := by
  constructor
  · intro clearance avail p hp
    simp [count_axis, if_pos hp]
  · intro roof_w roof_h panel_w panel_h clearance o h
    cases o <;> rcases h with h | h <;>
      simp [compute_panels_fit, effPanel, count_axis, if_pos h]

/-- Witness for C10 at a concrete input. -/
theorem C10_degenerate_panel_witness :
    (compute_panels_fit 10 8 0 1.75 0.4 Orientation.portrait).1 = 0 :=
  C10_degenerate_panel.2 10 8 0 1.75 0.4 Orientation.portrait (Or.inl le_rfl)

/-- C3: every monthly energy value equals
systemKw * irradiance * daysInMonth * performanceRatio * (1 - shadingFactor)
for its month, and the annual total is the sum of the twelve monthly
values. -/
theorem C3_forecast (s pr sf : ℚ) (psh days : Fin 12 → ℚ) :
    monthly_energy s psh days pr sf =
      [s * psh 0 * days 0 * pr * (1 - sf), s * psh 1 * days 1 * pr * (1 - sf),
       s * psh 2 * days 2 * pr * (1 - sf), s * psh 3 * days 3 * pr * (1 - sf),
       s * psh 4 * days 4 * pr * (1 - sf), s * psh 5 * days 5 * pr * (1 - sf),
       s * psh 6 * days 6 * pr * (1 - sf), s * psh 7 * days 7 * pr * (1 - sf),
       s * psh 8 * days 8 * pr * (1 - sf), s * psh 9 * days 9 * pr * (1 - sf),
       s * psh 10 * days 10 * pr * (1 - sf), s * psh 11 * days 11 * pr * (1 - sf)] ∧
    annual_kwh s psh days pr sf =
      s * psh 0 * days 0 * pr * (1 - sf) + s * psh 1 * days 1 * pr * (1 - sf) +
      s * psh 2 * days 2 * pr * (1 - sf) + s * psh 3 * days 3 * pr * (1 - sf) +
      s * psh 4 * days 4 * pr * (1 - sf) + s * psh 5 * days 5 * pr * (1 - sf) +
      s * psh 6 * days 6 * pr * (1 - sf) + s * psh 7 * days 7 * pr * (1 - sf) +
      s * psh 8 * days 8 * pr * (1 - sf) + s * psh 9 * days 9 * pr * (1 - sf) +
      s * psh 10 * days 10 * pr * (1 - sf) + s * psh 11 * days 11 * pr * (1 - sf) := by
  refine ⟨rfl, ?_⟩
  show (monthly_energy s psh days pr sf).sum = _
  rw [show monthly_energy s psh days pr sf =
      [s * psh 0 * days 0 * pr * (1 - sf), s * psh 1 * days 1 * pr * (1 - sf),
       s * psh 2 * days 2 * pr * (1 - sf), s * psh 3 * days 3 * pr * (1 - sf),
       s * psh 4 * days 4 * pr * (1 - sf), s * psh 5 * days 5 * pr * (1 - sf),
       s * psh 6 * days 6 * pr * (1 - sf), s * psh 7 * days 7 * pr * (1 - sf),
       s * psh 8 * days 8 * pr * (1 - sf), s * psh 9 * days 9 * pr * (1 - sf),
       s * psh 10 * days 10 * pr * (1 - sf), s * psh 11 * days 11 * pr * (1 - sf)]
    from rfl]
  simp [List.sum_cons]
  ring

/-- C4 counterexample: with systemKw = 1, annualKwh = 3, costPerKw = 1,
tariff = 1 the computed payback is 0.3, not installCost / max(savings, 1)
= 1/3: the code rounds the quotient to one decimal place. -/
theorem C4_payback_counterexample :
    (financial_evaluate 1 3 1 1).2.2 ≠
      (financial_evaluate 1 3 1 1).1 / max (financial_evaluate 1 3 1 1).2.1 1 := by
  norm_num [financial_evaluate, pyRound1, pyRoundInt]

/-- C4 amended: paybackYears is installCost / max(annualSavings, 1) rounded
to one decimal place, and with systemKw = 1, annualKwh = 0,
costPerKw = 50000, tariff = 8 the payback equals installCost / 1 exactly,
with no division by zero. -/
theorem C4_payback_floor (s a c t : ℚ) :
    (financial_evaluate s a c t).2.2 =
      pyRound1 ((financial_evaluate s a c t).1 / max (financial_evaluate s a c t).2.1 1) ∧
    (financial_evaluate 1 0 50000 8).2.2 = (financial_evaluate 1 0 50000 8).1 / 1 := by
  refine ⟨rfl, ?_⟩
  norm_num [financial_evaluate, pyRound1, pyRoundInt]

/-- C5: when the resource lookup fails, the fallback profile is the
tropical table for absolute latitude below 30 degrees and the temperate
table otherwise; latitude 21.25 selects the tropical profile, latitude 52
the temperate one. -/
theorem C5_fallback_selection :
    (∀ lat : ℚ, |lat| < 30 → fallback_profile lat =
      [4.5, 5.2, 6.0, 6.4, 6.5, 5.5, 4.8, 5.0, 5.8, 5.7, 5.0, 4.6]) ∧
    (∀ lat : ℚ, ¬ |lat| < 30 → fallback_profile lat =
      [3.8, 4.5, 5.5, 5.8, 6.0, 5.0, 4.2, 4.5, 5.0, 5.2, 4.5, 4.0]) ∧
    fallback_profile 21.25 =
      [4.5, 5.2, 6.0, 6.4, 6.5, 5.5, 4.8, 5.0, 5.8, 5.7, 5.0, 4.6] ∧
    fallback_profile 52 =
      [3.8, 4.5, 5.5, 5.8, 6.0, 5.0, 4.2, 4.5, 5.0, 5.2, 4.5, 4.0] := by
  refine ⟨fun lat h => ?_, fun lat h => ?_, ?_, ?_⟩
  · rw [fallback_profile, if_pos h]; rfl
  · rw [fallback_profile, if_neg h]; rfl
  · norm_num [fallback_profile, fallback_india, abs]
  · norm_num [fallback_profile, fallback_global, abs]

/-- Witness for C5 at a concrete latitude inside the tropical band. -/
theorem C5_fallback_selection_witness :
    fallback_profile 14 =
      [4.5, 5.2, 6.0, 6.4, 6.5, 5.5, 4.8, 5.0, 5.8, 5.7, 5.0, 4.6] :=
  C5_fallback_selection.1 14 (by norm_num [abs])

lemma np_clip_le_right (x lo hi : ℚ) : np_clip x lo hi ≤ hi := min_le_right _ _

lemma le_np_clip (x lo hi : ℚ) (h : lo ≤ hi) : lo ≤ np_clip x lo hi :=
  le_min (le_max_right _ _) h

lemma floor_le_pyRoundInt (x : ℚ) : ⌊x⌋ ≤ pyRoundInt x := by
  unfold pyRoundInt
  split_ifs <;> omega

lemma pyRoundInt_le_ceil (x : ℚ) : pyRoundInt x ≤ ⌈x⌉ := by
  have hceil : (⌊x⌋ : ℚ) < x → ⌊x⌋ + 1 ≤ ⌈x⌉ := fun h =>
    Int.add_one_le_iff.mpr (Int.lt_ceil.mpr h)
  unfold pyRoundInt
  split_ifs with h1 h2 h3
  · exact Int.floor_le_ceil x
  · exact hceil (by linarith)
  · exact Int.floor_le_ceil x
  · exact hceil (by push_neg at h1 h2; linarith)

lemma pyRound1_bounds {m n : ℤ} {x : ℚ} (h1 : (m : ℚ) ≤ 10 * x) (h2 : 10 * x ≤ (n : ℚ)) :
    (m : ℚ) / 10 ≤ pyRound1 x ∧ pyRound1 x ≤ (n : ℚ) / 10 := by
  have hm : m ≤ pyRoundInt (x * 10) :=
    le_trans (Int.le_floor.mpr (by rw [mul_comm]; exact h1)) (floor_le_pyRoundInt _)
  have hn : pyRoundInt (x * 10) ≤ n :=
    le_trans (pyRoundInt_le_ceil _) (Int.ceil_le.mpr (by rw [mul_comm]; exact h2))
  unfold pyRound1
  constructor
  · exact (div_le_div_iff_of_pos_right (by norm_num)).mpr (by exact_mod_cast hm)
  · exact (div_le_div_iff_of_pos_right (by norm_num)).mpr (by exact_mod_cast hn)

lemma resource_score_range (psh : List ℚ) :
    20 ≤ resource_score psh ∧ resource_score psh ≤ 95 := by
  unfold resource_score
  split_ifs
  · norm_num
  · exact ⟨le_np_clip _ _ _ (by norm_num), np_clip_le_right _ _ _⟩

lemma area_score_range (a : ℚ) : 30 ≤ area_score a ∧ area_score a ≤ 95 := by
  unfold area_score
  have h1 := le_np_clip ((a - 10) * 1.5) 0 65 (by norm_num)
  have h2 := np_clip_le_right ((a - 10) * 1.5) 0 65
  constructor <;> linarith

lemma shade_score_range (sf : ℚ) : 10 ≤ shade_score sf ∧ shade_score sf ≤ 100 :=
  ⟨le_np_clip _ _ _ (by norm_num), np_clip_le_right _ _ _⟩

lemma tilt_score_range (t lat : ℚ) : 40 ≤ tilt_score t lat ∧ tilt_score t lat ≤ 100 :=
  ⟨le_np_clip _ _ _ (by norm_num), np_clip_le_right _ _ _⟩

/-- For all inputs the suitability score lands in [24.5, 97]: the shared
core bound behind the score-range claims. -/
lemma suitability_score_range (a : ℚ) (psh : List ℚ) (sf t lat : ℚ) :
    49/2 ≤ suitability_score a psh sf t lat ∧ suitability_score a psh sf t lat ≤ 97 := by
  obtain ⟨hr1, hr2⟩ := resource_score_range psh
  obtain ⟨ha1, ha2⟩ := area_score_range a
  obtain ⟨hs1, hs2⟩ := shade_score_range sf
  obtain ⟨ht1, ht2⟩ := tilt_score_range t lat
  unfold suitability_score
  have e35 : (0.35 : ℚ) = 35 / 100 := by norm_num
  have e25 : (0.25 : ℚ) = 25 / 100 := by norm_num
  have e2 : (0.2 : ℚ) = 2 / 10 := by norm_num
  have hb := pyRound1_bounds (m := 245) (n := 970)
    (x := resource_score psh * 0.35 + area_score a * 0.25 +
      shade_score sf * 0.2 + tilt_score t lat * 0.2)
    (by rw [e35, e25, e2]; push_cast; linarith)
    (by rw [e35, e25, e2]; push_cast; linarith)
  have c1 : ((245 : ℤ) : ℚ) / 10 = 49 / 2 := by norm_num
  have c2 : ((970 : ℤ) : ℚ) / 10 = 97 := by norm_num
  rw [c1, c2] at hb
  exact hb

/-- C6: for any valid input combination (12-month irradiance list, shading
factor in [0, 0.8], tilt in [0, 60], latitude in [-90, 90]) the
suitability score lies in [0, 100]. -/
theorem C6_score_in_unit_range (a : ℚ) (psh : List ℚ) (sf t lat : ℚ)
    (hlen : psh.length = 12) (hsf0 : 0 ≤ sf) (hsf1 : sf ≤ 0.8)
    (ht0 : 0 ≤ t) (ht1 : t ≤ 60) (hlat0 : -90 ≤ lat) (hlat1 : lat ≤ 90) :
    0 ≤ suitability_score a psh sf t lat ∧ suitability_score a psh sf t lat ≤ 100 := by
  obtain ⟨h1, h2⟩ := suitability_score_range a psh sf t lat
  constructor <;> linarith

/-- Witness for C6 at a concrete input. -/
theorem C6_score_in_unit_range_witness :
    0 ≤ suitability_score 80 (List.replicate 12 (5.5 : ℚ)) 0.1 20 21.25 ∧
    suitability_score 80 (List.replicate 12 (5.5 : ℚ)) 0.1 20 21.25 ≤ 100 :=
  C6_score_in_unit_range 80 (List.replicate 12 (5.5 : ℚ)) 0.1 20 21.25
    (by simp) (by norm_num) (by norm_num) (by norm_num) (by norm_num)
    (by norm_num) (by norm_num)

/-- C9: under the stated input ranges each sub-score is clamped to its
band ([20, 95], [30, 95], [10, 100], [40, 100]) and the weighted, rounded
score lies in the strictly tighter interval [24.5, 97], so it is never 0
and never reaches 100. -/
theorem C9_score_tight_range (a : ℚ) (psh : List ℚ) (sf t lat : ℚ)
    (hne : psh ≠ []) (hlen : psh.length = 12) (hnn : ∀ x ∈ psh, 0 ≤ x)
    (ha : 0 ≤ a) (hsf0 : 0 ≤ sf) (hsf1 : sf ≤ 0.8)
    (ht0 : 0 ≤ t) (ht1 : t ≤ 60) (hlat0 : -90 ≤ lat) (hlat1 : lat ≤ 90) :
    (20 ≤ resource_score psh ∧ resource_score psh ≤ 95) ∧
    (30 ≤ area_score a ∧ area_score a ≤ 95) ∧
    (10 ≤ shade_score sf ∧ shade_score sf ≤ 100) ∧
    (40 ≤ tilt_score t lat ∧ tilt_score t lat ≤ 100) ∧
    49/2 ≤ suitability_score a psh sf t lat ∧
    suitability_score a psh sf t lat ≤ 97 ∧
    suitability_score a psh sf t lat ≠ 0 ∧
    suitability_score a psh sf t lat ≠ 100 := by
  obtain ⟨h1, h2⟩ := suitability_score_range a psh sf t lat
  refine ⟨resource_score_range psh, area_score_range a, shade_score_range sf,
    tilt_score_range t lat, h1, h2, fun h => ?_, fun h => ?_⟩
  · rw [h] at h1; norm_num at h1
  · rw [h] at h2; norm_num at h2

/-- Witness for C9 at a concrete input. -/
theorem C9_score_tight_range_witness :
    49/2 ≤ suitability_score 40 [4.5, 5.2, 6.0, 6.4, 6.5, 5.5, 4.8, 5.0, 5.8, 5.7, 5.0, 4.6]
        0.2 25 25 ∧
    suitability_score 40 [4.5, 5.2, 6.0, 6.4, 6.5, 5.5, 4.8, 5.0, 5.8, 5.7, 5.0, 4.6]
        0.2 25 25 ≤ 97 :=
  have h := C9_score_tight_range 40
    [4.5, 5.2, 6.0, 6.4, 6.5, 5.5, 4.8, 5.0, 5.8, 5.7, 5.0, 4.6] 0.2 25 25
    (by simp) (by norm_num) (by norm_num) (by norm_num) (by norm_num)
    (by norm_num) (by norm_num) (by norm_num) (by norm_num) (by norm_num)
  ⟨h.2.2.2.2.1, h.2.2.2.2.2.1⟩

end Solar
